import Mathlib

/-!
Verification of the retrieval-and-dialogue-control core of the QA system.

The development shallowly embeds:
* `rag/Vector_matching.py` (`VectorSearcher._cosine_similarity`, `VectorSearcher.search`);
* `main/qa_engine.py` (`QAEngine.handle_query`, `QAEngine.handle_query_stream`,
  `QASessionState`);
* the per-turn body of the interactive loop in `main/main.py`;
* `main/branch_engine.py` (`Branch1Engine.handle_query_stream`).

External collaborators (intent classifier, embedding provider, MySQL store,
answer generator) are modelled as oracles carried in an environment record:
each oracle field records the outcome of the corresponding call during one
turn (`none` standing for the call raising an exception, mirroring the
`except` branches of the source).  Vectors are modelled over `ℝ`
(exact-real semantics of the floating-point arithmetic in the source).
-/

/-! Data model of `rag/Vector_matching.py`

A knowledge-base record is a JSON object with keys `id`, `text`, `vector`.
`vector := none` models a record without a `'vector'` key; the source treats a
missing key and an empty list the same way (`if 'vector' not in item or not
item['vector']: continue`). -/

structure KBItem (β : Type) where
  id : Int
  text : String
  vector : Option (List β)

/-- One element of the `all_matches` list built by `VectorSearcher.search`:
`{'id': ..., 'text': ..., 'similarity': ...}`. -/
structure MatchEntry (β : Type) where
  id : Int
  text : String
  similarity : β
deriving DecidableEq

instance {β : Type} [Inhabited β] : Inhabited (MatchEntry β) :=
  ⟨⟨0, "", default⟩⟩

/-- The comparison used by `sorted(all_matches, key=lambda x: x['similarity'],
reverse=True)`: descending similarity. -/
def descBySim {β : Type} [LinearOrder β] (a b : MatchEntry β) : Prop :=
  b.similarity ≤ a.similarity

instance {β : Type} [LinearOrder β] : DecidableRel (@descBySim β _) :=
  fun a b => inferInstanceAs (Decidable (b.similarity ≤ a.similarity))

instance {β : Type} [LinearOrder β] : IsTotal (MatchEntry β) descBySim :=
  ⟨fun a b => le_total b.similarity a.similarity⟩

instance {β : Type} [LinearOrder β] : IsTrans (MatchEntry β) descBySim :=
  ⟨fun _ _ _ h1 h2 => le_trans h2 h1⟩

/-- The `all_matches` accumulation loop of `VectorSearcher.search`: every
knowledge-base item with a present, non-empty vector contributes one candidate
match carrying its similarity to the query vector. -/
def allMatches {β : Type} (simf : List β → List β → β) (queryVector : List β)
    (knowledgeBase : List (KBItem β)) : List (MatchEntry β) :=
  knowledgeBase.filterMap fun item =>
    match item.vector with
    | none => none
    | some v => if v.isEmpty then none else some ⟨item.id, item.text, simf queryVector v⟩

/-- The body of `VectorSearcher.search` after the query vector has been
obtained from the embedding provider: score all candidates, sort by similarity
descending with a stable sort (Python `sorted` is stable), filter by
`similarity >= similarity_threshold`, truncate to `top_k`. -/
def searchPipeline {β : Type} [LinearOrder β] (simf : List β → List β → β)
    (knowledgeBase : List (KBItem β)) (queryVector : List β)
    (top_k : Nat) (similarity_threshold : β) : List (MatchEntry β) :=
  let all_matches := allMatches simf queryVector knowledgeBase
  let sorted_matches := all_matches.insertionSort descBySim
  let final_results := sorted_matches.filter fun m => decide (similarity_threshold ≤ m.similarity)
  final_results.take top_k

/-- Model of `np.dot` on two equal-length real vectors (the source always pairs a query
vector with a stored vector of the same dimension; `zipWith` truncates to the
shorter one, which is irrelevant on equal lengths). -/
def dotProduct (v w : List ℝ) : ℝ :=
  (List.zipWith (fun a b => a * b) v w).sum

/-- Model of `np.linalg.norm`: `sqrt (v ⬝ v)`. -/
noncomputable def vecNorm (v : List ℝ) : ℝ :=
  Real.sqrt (dotProduct v v)

/-- Model of `VectorSearcher._cosine_similarity`: returns `0.0` when either vector has
zero norm, otherwise `dot / (‖v1‖ * ‖v2‖)`. -/
noncomputable def cosine_similarity (vec1 vec2 : List ℝ) : ℝ :=
  if vecNorm vec1 = 0 ∨ vecNorm vec2 = 0 then 0
  else dotProduct vec1 vec2 / (vecNorm vec1 * vecNorm vec2)

/-- Model of `VectorSearcher.search`, with the query represented by its embedding
vector (the call to the external embedding provider is outside the model). -/
noncomputable def VectorSearcher.search (knowledgeBase : List (KBItem ℝ))
    (queryVector : List ℝ) (top_k : Nat) (similarity_threshold : ℝ) : List (MatchEntry ℝ) :=
  searchPipeline cosine_similarity knowledgeBase queryVector top_k similarity_threshold

/-! Structural lemmas about the search pipeline -/

lemma searchPipeline_sorted {β : Type} [LinearOrder β] (simf : List β → List β → β)
    (kb : List (KBItem β)) (q : List β) (k : Nat) (t : β) :
    List.Sorted descBySim (searchPipeline simf kb q k t) := by
  have hs : List.Sorted descBySim ((allMatches simf q kb).insertionSort descBySim) :=
    List.sorted_insertionSort descBySim _
  have hf : List.Sorted descBySim
      (((allMatches simf q kb).insertionSort descBySim).filter
        fun m => decide (t ≤ m.similarity)) :=
    hs.filter _
  exact hf.sublist (List.take_sublist _ _)

lemma searchPipeline_threshold {β : Type} [LinearOrder β] (simf : List β → List β → β)
    (kb : List (KBItem β)) (q : List β) (k : Nat) (t : β) :
    ∀ m ∈ searchPipeline simf kb q k t, t ≤ m.similarity := by
  intro m hm
  have hm' := List.mem_of_mem_take hm
  exact of_decide_eq_true (List.mem_filter.mp hm').2

lemma searchPipeline_length {β : Type} [LinearOrder β] (simf : List β → List β → β)
    (kb : List (KBItem β)) (q : List β) (k : Nat) (t : β) :
    (searchPipeline simf kb q k t).length ≤ k := by
  simp only [searchPipeline]
  exact List.length_take_le k _

/-- Stability of one `orderedInsert` step with respect to a class `Q` of
pairwise-tied elements: the `Q`-members of the output are the inserted element
(when it is in `Q`) followed by the `Q`-members of the input, in order. -/
lemma filter_orderedInsert {α : Type} (r : α → α → Prop) [DecidableRel r] (Q : α → Bool)
    (hA : ∀ a b, Q a = true → Q b = true → r a b) (x : α) (l : List α) :
    (List.orderedInsert r x l).filter Q =
      if Q x then x :: l.filter Q else l.filter Q := by
  induction l with
  | nil =>
    simp only [List.orderedInsert]
    by_cases hQx : Q x <;> simp [List.filter_cons, hQx]
  | cons b l ih =>
    by_cases hrb : r x b
    · simp only [List.orderedInsert, if_pos hrb]
      by_cases hQx : Q x <;> simp [List.filter_cons, hQx]
    · simp only [List.orderedInsert, if_neg hrb]
      by_cases hQx : Q x
      · have hQb : Q b = false := by
          cases hQbv : Q b
          · rfl
          · exact absurd (hA x b hQx hQbv) hrb
        simp [List.filter_cons, hQb, hQx, ih]
      · by_cases hQbv : Q b <;> simp [List.filter_cons, hQbv, hQx, ih]

/-- Insertion sort is stable: it does not reorder the members of a class `Q`
of pairwise-tied elements. -/
lemma filter_insertionSort {α : Type} (r : α → α → Prop) [DecidableRel r] (Q : α → Bool)
    (hA : ∀ a b, Q a = true → Q b = true → r a b) (l : List α) :
    (List.insertionSort r l).filter Q = l.filter Q := by
  induction l with
  | nil => rfl
  | cons a l ih =>
    simp only [List.insertionSort]
    rw [filter_orderedInsert r Q hA a]
    by_cases hQa : Q a <;> simp [List.filter_cons, hQa, ih]

/-- The search pipeline keeps equal-similarity entries in knowledge-base
order: its entries of any fixed similarity `s` form a sublist of the
candidate list `all_matches`, which itself lists the knowledge base in
insertion order. -/
lemma searchPipeline_stable {β : Type} [LinearOrder β] (simf : List β → List β → β)
    (kb : List (KBItem β)) (q : List β) (k : Nat) (t : β) (s : β) :
    List.Sublist ((searchPipeline simf kb q k t).filter fun m => decide (m.similarity = s))
      ((allMatches simf q kb).filter fun m => decide (m.similarity = s)) := by
  have hA : ∀ a b : MatchEntry β, (decide (a.similarity = s)) = true →
      (decide (b.similarity = s)) = true → descBySim a b := by
    intro a b ha hb
    have ha' := of_decide_eq_true ha
    have hb' := of_decide_eq_true hb
    exact le_of_eq (hb'.trans ha'.symm)
  have h1 : List.Sublist
      ((searchPipeline simf kb q k t).filter fun m => decide (m.similarity = s))
      ((((allMatches simf q kb).insertionSort descBySim).filter
          fun m => decide (t ≤ m.similarity)).filter fun m => decide (m.similarity = s)) :=
    (List.take_sublist _ _).filter _
  have h2 : List.Sublist
      ((((allMatches simf q kb).insertionSort descBySim).filter
        fun m => decide (t ≤ m.similarity)).filter fun m => decide (m.similarity = s))
      (((allMatches simf q kb).insertionSort descBySim).filter
        fun m => decide (m.similarity = s)) :=
    (List.filter_sublist _).filter _
  have h3 : (((allMatches simf q kb).insertionSort descBySim).filter
      fun m => decide (m.similarity = s)) = ((allMatches simf q kb).filter
        fun m => decide (m.similarity = s)) :=
    filter_insertionSort descBySim _ hA _
  exact (h1.trans h2).trans (h3 ▸ List.Sublist.refl _)

/-- Claim C1: the result of `VectorSearcher.search` is non-increasing in
similarity, every returned entry has similarity at least the (inclusive)
threshold, and the result holds at most `top_k` entries. -/
theorem claim_C1 (kb : List (KBItem ℝ)) (q : List ℝ) (k : Nat) (t : ℝ) (hk : 1 ≤ k) :
    List.Sorted (fun a b => b.similarity ≤ a.similarity) (VectorSearcher.search kb q k t) ∧
      (∀ m ∈ VectorSearcher.search kb q k t, t ≤ m.similarity) ∧
      (VectorSearcher.search kb q k t).length ≤ k := by
  refine ⟨?_, ?_, ?_⟩
  · exact searchPipeline_sorted cosine_similarity kb q k t
  · exact searchPipeline_threshold cosine_similarity kb q k t
  · exact searchPipeline_length cosine_similarity kb q k t

/-- Witness for C1 at a concrete input. -/
theorem claim_C1_witness :
    List.Sorted (fun a b => b.similarity ≤ a.similarity) (VectorSearcher.search [] [] 1 0) ∧
      (∀ m ∈ VectorSearcher.search [] [] 1 0, (0 : ℝ) ≤ m.similarity) ∧
      (VectorSearcher.search [] [] 1 0).length ≤ 1 :=
  claim_C1 [] [] 1 0 (by decide)

/-! Concrete scenario for the tie-break rule (spec §8)

Knowledge base `[{id:1,text:"A",vector:[1,0]}, {id:2,text:"B",vector:[0,1]}]`,
query vector `[0.7, 0.7]`, `top_k = 3`, threshold `0.1`. -/

noncomputable def kb9 : List (KBItem ℝ) :=
  [⟨1, "A", some [1, 0]⟩, ⟨2, "B", some [0, 1]⟩]

noncomputable def q9 : List ℝ := [7 / 10, 7 / 10]

lemma dotProduct_q9_q9 : dotProduct q9 q9 = 49 / 50 := by
  norm_num [dotProduct, q9]

lemma dotProduct_q9_e1 : dotProduct q9 [1, 0] = 7 / 10 := by
  norm_num [dotProduct, q9]

lemma dotProduct_q9_e2 : dotProduct q9 [0, 1] = 7 / 10 := by
  norm_num [dotProduct, q9]

lemma vecNorm_q9 : vecNorm q9 = Real.sqrt (49 / 50) := by
  rw [vecNorm, dotProduct_q9_q9]

lemma vecNorm_e1 : vecNorm [1, 0] = 1 := by
  have h : dotProduct [1, 0] [1, 0] = 1 := by norm_num [dotProduct]
  rw [vecNorm, h, Real.sqrt_one]

lemma vecNorm_e2 : vecNorm [0, 1] = 1 := by
  have h : dotProduct [0, 1] [0, 1] = 1 := by norm_num [dotProduct]
  rw [vecNorm, h, Real.sqrt_one]

lemma vecNorm_q9_pos : 0 < vecNorm q9 := by
  rw [vecNorm_q9]
  exact Real.sqrt_pos.mpr (by norm_num)

lemma cosine_q9_e1 : cosine_similarity q9 [1, 0] = 7 / 10 / Real.sqrt (49 / 50) := by
  rw [cosine_similarity, if_neg]
  · rw [dotProduct_q9_e1, vecNorm_q9, vecNorm_e1, mul_one]
  · push_neg
    exact ⟨ne_of_gt vecNorm_q9_pos, by rw [vecNorm_e1]; norm_num⟩

lemma cosine_q9_e2 : cosine_similarity q9 [0, 1] = 7 / 10 / Real.sqrt (49 / 50) := by
  rw [cosine_similarity, if_neg]
  · rw [dotProduct_q9_e2, vecNorm_q9, vecNorm_e2, mul_one]
  · push_neg
    exact ⟨ne_of_gt vecNorm_q9_pos, by rw [vecNorm_e2]; norm_num⟩

lemma tied_sim_ge_threshold : (1 : ℝ) / 10 ≤ 7 / 10 / Real.sqrt (49 / 50) := by
  have h1 : Real.sqrt (49 / 50) ≤ 1 := by
    rw [show (1 : ℝ) = Real.sqrt 1 from Real.sqrt_one.symm]
    exact Real.sqrt_le_sqrt (by norm_num)
  have h2 : 0 < Real.sqrt (49 / 50) := Real.sqrt_pos.mpr (by norm_num)
  rw [le_div_iff₀ h2]
  nlinarith

lemma search_kb9_eval : VectorSearcher.search kb9 q9 3 (1 / 10) =
    [⟨1, "A", 7 / 10 / Real.sqrt (49 / 50)⟩, ⟨2, "B", 7 / 10 / Real.sqrt (49 / 50)⟩] := by
  have hall : allMatches cosine_similarity q9 kb9 =
      [⟨1, "A", cosine_similarity q9 [1, 0]⟩, ⟨2, "B", cosine_similarity q9 [0, 1]⟩] := rfl
  rw [cosine_q9_e1, cosine_q9_e2] at hall
  have hd : descBySim (⟨1, "A", 7 / 10 / Real.sqrt (49 / 50)⟩ : MatchEntry ℝ)
      ⟨2, "B", 7 / 10 / Real.sqrt (49 / 50)⟩ := le_refl _
  have hsort : List.insertionSort descBySim
      [(⟨1, "A", 7 / 10 / Real.sqrt (49 / 50)⟩ : MatchEntry ℝ),
        ⟨2, "B", 7 / 10 / Real.sqrt (49 / 50)⟩] =
      [⟨1, "A", 7 / 10 / Real.sqrt (49 / 50)⟩, ⟨2, "B", 7 / 10 / Real.sqrt (49 / 50)⟩] := by
    simp only [List.insertionSort, List.orderedInsert]
    rw [if_pos hd]
  have hdec : (decide ((1 : ℝ) / 10 ≤ 7 / 10 / Real.sqrt (49 / 50))) = true :=
    decide_eq_true tied_sim_ge_threshold
  simp only [VectorSearcher.search, searchPipeline, hall, hsort]
  simp only [List.filter_cons, List.filter_nil, hdec, if_pos]
  rfl

/-- Claim C9: the sort is stable — entries tying in similarity appear in
knowledge-base insertion order (any fixed-similarity slice of the result is a
sublist of the candidate list, which lists the knowledge base in order); in
particular, for the base `[{id:1,vector:[1,0]}, {id:2,vector:[0,1]}]` and
query `[0.7, 0.7]` with threshold `0.1`, both entries tie and are returned in
insertion order `[1, 2]`. -/
theorem claim_C9 :
    (∀ (kb : List (KBItem ℝ)) (q : List ℝ) (k : Nat) (t s : ℝ),
      List.Sublist
        ((VectorSearcher.search kb q k t).filter fun m => decide (m.similarity = s))
        ((allMatches cosine_similarity q kb).filter fun m => decide (m.similarity = s))) ∧
      (VectorSearcher.search kb9 q9 3 (1 / 10)).map MatchEntry.id = [1, 2] ∧
      cosine_similarity q9 [1, 0] = cosine_similarity q9 [0, 1] := by
  refine ⟨?_, ?_, ?_⟩
  · intro kb q k t s
    exact searchPipeline_stable cosine_similarity kb q k t s
  · rw [search_kb9_eval]
    rfl
  · rw [cosine_q9_e1, cosine_q9_e2]

/-! Zero-norm entries (C4) -/

lemma cosine_similarity_zero_right (q v : List ℝ) (h : vecNorm v = 0) :
    cosine_similarity q v = 0 :=
  if_pos (Or.inr h)

/-- Claim C4 (amended): a knowledge-base entry whose stored vector has zero
norm is assigned similarity `0.0` (it is not skipped), so it never appears in
the result when the threshold is strictly positive; with a threshold `≤ 0` it
can appear (see the counterexample). -/
theorem claim_C4 (kb : List (KBItem ℝ)) (q : List ℝ) (k : Nat) (t : ℝ)
    (item : KBItem ℝ) (v : List ℝ) (hmem : item ∈ kb) (hv : item.vector = some v)
    (hnorm : vecNorm v = 0) (ht : 0 < t) :
    (⟨item.id, item.text, cosine_similarity q v⟩ : MatchEntry ℝ) ∉
      VectorSearcher.search kb q k t := by
  intro hcontra
  have hle := searchPipeline_threshold cosine_similarity kb q k t _ hcontra
  have h0 : (⟨item.id, item.text, cosine_similarity q v⟩ : MatchEntry ℝ).similarity = 0 :=
    cosine_similarity_zero_right q v hnorm
  rw [h0] at hle
  exact absurd hle (not_le.mpr ht)

noncomputable def kbZero : List (KBItem ℝ) := [⟨1, "Z", some [0, 0]⟩]

lemma vecNorm_zero2 : vecNorm [0, 0] = 0 := by
  have h : dotProduct [0, 0] [0, 0] = 0 := by norm_num [dotProduct]
  rw [vecNorm, h, Real.sqrt_zero]

/-- Witness for C4 at a concrete input. -/
theorem claim_C4_witness :
    (⟨1, "Z", cosine_similarity [1, 0] [0, 0]⟩ : MatchEntry ℝ) ∉
      VectorSearcher.search kbZero [1, 0] 1 1 :=
  claim_C4 kbZero [1, 0] 1 1 ⟨1, "Z", some [0, 0]⟩ [0, 0]
    (by simp [kbZero]) rfl vecNorm_zero2 (by norm_num)

/-- Counterexample to C4 as stated: with threshold `0` (a threshold `≤ 0`),
the zero-norm entry DOES appear in the search result — the source only skips
missing or empty vectors, and a zero-norm entry receives similarity `0.0`,
which passes the inclusive comparison `0.0 >= 0`. -/
theorem claim_C4_counterexample :
    (VectorSearcher.search kbZero [1, 0] 1 0).map MatchEntry.id = [1] := by
  have hc : cosine_similarity [1, 0] [0, 0] = 0 :=
    cosine_similarity_zero_right _ _ vecNorm_zero2
  have hall : allMatches cosine_similarity [1, 0] kbZero =
      [⟨1, "Z", (0 : ℝ)⟩] := by
    simp [allMatches, kbZero, hc]
  simp only [VectorSearcher.search, searchPipeline, hall]
  simp [List.insertionSort, List.orderedInsert, List.filter_cons, le_refl]

/-! Session state and per-turn collaborator environment (`main/qa_engine.py`)

`QASessionState` mirrors the Python class of the same name (the opaque
`session_id` string plays no role in the routing logic and is omitted).
`TurnEnv` packages the outcomes of the external collaborator calls made
during one turn; `none` models the call raising an exception, matching the
corresponding `except` branch in the source. -/

structure QASessionState where
  intent_history : List (String × String)
  int_id : Nat
deriving DecidableEq

structure TurnEnv where
  /-- Outcome of the call chain `intent_recognizer.chat(...)...strip().lower()`;
  value `none` models the call raising. -/
  intentResult : Option String
  /-- Outcome of `searcher.search(...)`; `none` models the call raising. -/
  searchResults : Option (List (MatchEntry ℝ))
  /-- Context string assembled from the `item_details` rows for an id;
  `none` models the connection/query raising or returning no rows, in which
  case the source falls back to the matched entry's own `text`. -/
  itemDetails : Int → Option String
  /-- Outcome of `answer_generator.chat(query, context)`; `none` models the
  call raising. -/
  generate : String → String → Option String
  /-- Outcome of the per-id `business_name` lookup; `none` models a missing
  row, in which case the source falls back to the matched entry's `text`. -/
  businessName : Int → Option String
  /-- Value `false` models the whole options-branch DB connection raising. -/
  optionsDbOk : Bool

/-- The label the router works with: the classifier's output, defaulted to
`"t2"` (new topic) when the classification call raised. -/
def observedIntent (r : Option String) : String :=
  r.getD "t2"

/-- From `qa_engine.py`: the single defer message of `handle_query` /
`handle_query_stream` (used both when retrieval is empty and when the
follow-up counter is exhausted). -/
def qaDeferMessage : String :=
  "抱歉，我在知识库中没有找到与您问题直接相关的信息。"

/-- The fixed fallback answer when the generation call raises (identical
strings in `qa_engine.py` and `main.py`). -/
def generationFailureMessage : String :=
  "抱歉，生成回答时出现了技术问题，请稍后重试。"

/-- From `main.py`: defer message when retrieval returned nothing. -/
def mainDeferEmptyMessage : String :=
  "抱歉，我在知识库中没有找到与您问题相关的信息。请尝试换个方式提问，或者联系相关部门获取帮助。"

/-- From `main.py`: defer message when the follow-up counter reached 3. -/
def mainDeferExhaustedMessage : String :=
  "您已经连续追问了多次，我可能无法准确理解您的需求。建议您重新描述问题，或者联系相关部门获取更详细的帮助。"

/-- Rendering by `json.dumps` of one option record with keys `id` and
`business_name` (string escaping of the contents is not modelled). -/
def optionItemJson (o : Int × String) : String :=
  "\x7b\"id\": " ++ toString o.1 ++ ", \"business_name\": \"" ++ o.2 ++ "\"\x7d"

/-- Rendering by `json.dumps` of the options payload with keys `old_query`
and `options` (whitespace/indent variants across call sites are not
modelled). -/
def optionsDataJson (old_query : String) (opts : List (Int × String)) : String :=
  "\x7b\"old_query\": \"" ++ old_query ++ "\", \"options\": [" ++
    String.intercalate ", " (opts.map optionItemJson) ++ "]\x7d"

/-- The options-list construction shared by `handle_query`,
`_get_structured_options` and the multi-result branch of `main.py`: per
candidate, look up its `business_name`; fall back to the candidate's stored
`text` when the row is missing; when the DB connection itself raised, build
the whole fallback list from the stored texts. -/
def buildOptions (businessName : Int → Option String) (dbOk : Bool)
    (rs : List (MatchEntry ℝ)) : List (Int × String) :=
  if dbOk then
    rs.map fun r =>
      match businessName r.id with
      | some name => (r.id, name)
      | none => (r.id, r.text)
  else
    rs.map fun r => (r.id, r.text)

/-- The structured result of one `QAEngine.handle_query` call, together with
the session state it leaves behind and flags recording which collaborators
were invoked. `history` is `session.intent_history` after the turn. -/
structure TurnResponse where
  rtype : String
  answer : String
  options : List (Int × String)
  intent : String
  int_id : Nat
  num_results : Nat
  history : List (String × String)
  fetchedContext : Bool
  calledGenerator : Bool
  searchCalls : Nat

/-- Model of `QAEngine.handle_query`: intent classification (defaulting to `"t2"` on
failure), follow-up counter update, retrieval (treated as empty on failure),
then the three-way branch (single result → DB context + generated answer;
multiple results → options list; otherwise the fixed defer message), and
finally the two history appends (no cap is applied in `qa_engine.py`). -/
def QAEngine.handle_query (env : TurnEnv) (user_query : String)
    (session : QASessionState) : TurnResponse :=
  let intent_result := observedIntent env.intentResult
  let int_id : Nat := if intent_result = "t1" then session.int_id + 1 else 1
  let search_results := env.searchResults.getD []
  let num_results := search_results.length
  if num_results > 0 ∧ int_id < 3 then
    if num_results = 1 then
      let result := search_results.headI
      let context_for_model := (env.itemDetails result.id).getD result.text
      let answer := (env.generate user_query context_for_model).getD generationFailureMessage
      { rtype := "answer", answer := answer, options := [], intent := intent_result,
        int_id := int_id, num_results := num_results,
        history := session.intent_history ++ [("user", user_query), ("assistant", answer)],
        fetchedContext := true, calledGenerator := true, searchCalls := 1 }
    else
      let opts := buildOptions env.businessName env.optionsDbOk search_results
      let answer_for_history := optionsDataJson user_query opts
      { rtype := "options", answer := "", options := opts, intent := intent_result,
        int_id := int_id, num_results := num_results,
        history := session.intent_history ++
          [("user", user_query), ("assistant", answer_for_history)],
        fetchedContext := true, calledGenerator := false, searchCalls := 1 }
  else
    { rtype := "answer", answer := qaDeferMessage, options := [], intent := intent_result,
      int_id := int_id, num_results := num_results,
      history := session.intent_history ++
        [("user", user_query), ("assistant", qaDeferMessage)],
      fetchedContext := false, calledGenerator := false, searchCalls := 1 }

/-! The per-turn body of the interactive loop in `main/main.py`

`main.py` keeps `intent_history` as a plain Python list and appends to it
twice per turn: first two bare strings, then — after the 10-entry trim — two
`{"role": ..., "content": ...}` dicts.  `HistEntry` distinguishes the two
shapes. -/

inductive HistEntry where
  | plain (content : String)
  | tagged (role content : String)
deriving DecidableEq

structure MainLoopState where
  intent_history : List HistEntry
  int_id : Nat
deriving DecidableEq

structure MainTurnResult where
  assistant_response : String
  int_id : Nat
  intent_history : List HistEntry
  fetchedContext : Bool
  calledGenerator : Bool
deriving DecidableEq

/-- One iteration of the `while True` loop of `main.py` (steps 1–3 plus the
history updates), with the same collaborator environment as
`QAEngine.handle_query`. -/
def mainTurn (env : TurnEnv) (user_query : String) (st : MainLoopState) : MainTurnResult :=
  let intent_result := observedIntent env.intentResult
  let int_id : Nat := if intent_result = "t1" then st.int_id + 1 else 1
  let search_results := env.searchResults.getD []
  let num_results := search_results.length
  let step3 : String × Bool × Bool :=
    if num_results > 0 ∧ int_id < 3 then
      if num_results = 1 then
        let result := search_results.headI
        let context_for_model := (env.itemDetails result.id).getD result.text
        ((env.generate user_query context_for_model).getD generationFailureMessage,
          true, true)
      else
        (optionsDataJson user_query
            (buildOptions env.businessName env.optionsDbOk search_results),
          true, false)
    else
      (if num_results = 0 then mainDeferEmptyMessage else mainDeferExhaustedMessage,
        false, false)
  let assistant_response := step3.1
  let h1 := st.intent_history ++
    [HistEntry.plain user_query, HistEntry.plain assistant_response]
  let h2 := if h1.length > 10 then h1.drop (h1.length - 10) else h1
  let h3 := h2 ++
    [HistEntry.tagged "user" user_query, HistEntry.tagged "assistant" assistant_response]
  { assistant_response := assistant_response, int_id := int_id, intent_history := h3,
    fetchedContext := step3.2.1, calledGenerator := step3.2.2 }

/-! Model of `QAEngine.handle_query_stream` -/

structure StreamTurnEnv where
  intentResult : Option String
  searchResults : Option (List (MatchEntry ℝ))
  itemDetails : Int → Option String
  /-- The streaming branch re-runs the `item_details` query (for logging)
  inside a `try/finally` with no `except` clause; `true` models that
  connection/query raising. -/
  sqlLogFetchRaises : Bool
  /-- Fragments produced by `answer_generator.chat_stream` before it either
  completes or raises. -/
  streamFragments : List String
  /-- Value `true` models `chat_stream` raising after `streamFragments`. -/
  streamRaises : Bool
  businessName : Int → Option String
  optionsDbOk : Bool

/-- The result of consuming the `handle_query_stream` generator: the chunks
it yielded (fragments already yielded are delivered even if the generator
later raises), the session history it leaves behind, the updated counter
(the counter is mutated before any failure point), and whether the generator
terminated with an escaping exception. -/
structure StreamOutcome where
  chunks : List String
  intent_history : List (String × String)
  int_id : Nat
  raised : Bool

/-- The first chunk of the single-result streaming branch:
`f"```json\\n{{\\\"id\\\": \\\"{item_id}\\\"}}\\n```\\n\\n"` (the `\n` are
two-character backslash-n sequences in the produced text). -/
def idJsonChunk (item_id : Int) : String :=
  "```json\\n\x7b\\\"id\\\": \\\"" ++ toString item_id ++ "\\\"\x7d\\n```\\n\\n"

/-- The single chunk of the multi-result streaming branch:
`json.dumps({"type": "options", "data": {...}})`. -/
def streamOptionsChunk (query : String) (opts : List (Int × String)) : String :=
  "\x7b\"type\": \"options\", \"data\": " ++ optionsDataJson query opts ++ "\x7d"

/-- Model of `QAEngine.handle_query_stream`.  The whole body sits in one
`try/except`.  When an exception reaches that handler (the logging SQL fetch
or the generation stream raising), the handler first evaluates
`self.logger.error(...)` — but `QAEngine.__init__` only ever assigns
`self.user_logger`, never `self.logger`, so the handler itself raises
`AttributeError`: the subsequent `yield` of the error JSON is unreachable,
the exception escapes to the caller, and the session history commit (which
sits after the stream loop) is skipped. -/
def QAEngine.handle_query_stream (env : StreamTurnEnv) (query : String)
    (session : QASessionState) : StreamOutcome :=
  let intent_result := observedIntent env.intentResult
  let int_id : Nat := if intent_result = "t1" then session.int_id + 1 else 1
  let search_results := env.searchResults.getD []
  let num_results := search_results.length
  if num_results > 0 ∧ int_id < 3 then
    if num_results = 1 then
      let result := search_results.headI
      let idChunk := idJsonChunk result.id
      if env.sqlLogFetchRaises then
        { chunks := [idChunk], intent_history := session.intent_history,
          int_id := int_id, raised := true }
      else if env.streamRaises then
        { chunks := idChunk :: env.streamFragments,
          intent_history := session.intent_history,
          int_id := int_id, raised := true }
      else
        let assistant_response := String.join env.streamFragments
        { chunks := idChunk :: env.streamFragments,
          intent_history := session.intent_history ++
            [("user", query), ("assistant", assistant_response)],
          int_id := int_id, raised := false }
    else
      let opts := buildOptions env.businessName env.optionsDbOk search_results
      let assistant_response := streamOptionsChunk query opts
      { chunks := [assistant_response],
        intent_history := session.intent_history ++
          [("user", query), ("assistant", assistant_response)],
        int_id := int_id, raised := false }
  else
    { chunks := [qaDeferMessage],
      intent_history := session.intent_history ++
        [("user", query), ("assistant", qaDeferMessage)],
      int_id := int_id, raised := false }

/-! Model of `main/branch_engine.py` -/

structure Branch1Env where
  /-- Value `some m` models the pymysql call inside `fetch_data_by_id` raising
  with message `m`; `fetch_data_by_id` re-raises it wrapped as
  `Exception(f"数据库查询失败: {e}")`. -/
  dbError : Option String
  /-- Fragments produced by `bot.chat_stream` before completing or raising. -/
  streamFragments : List String
  /-- Value `some m` models `chat_stream` raising with message `m` after the
  fragments. -/
  streamError : Option String
deriving DecidableEq

/-- The first chunk of the Branch1 stream: `f'json{{"id":"{item_id}"}}\n'`. -/
def branch1IdChunk (item_id : Int) : String :=
  "json\x7b\"id\":\"" ++ toString item_id ++ "\"\x7d\n"

/-- Model of `Branch1Engine.handle_query_stream`: on any exception the `except`
branch yields `f"处理失败: {str(e)}"` — the collaborator's raw error text —
directly into the user-visible stream; empty generation chunks are dropped
(`if chunk:`). -/
def Branch1Engine.handle_query_stream (env : Branch1Env) (item_id : Int)
    (user_question : String) : List String :=
  match env.dbError with
  | some m => ["处理失败: 数据库查询失败: " ++ m]
  | none =>
    let delivered := branch1IdChunk item_id ::
      env.streamFragments.filter fun c => decide (c ≠ "")
    match env.streamError with
    | some m => delivered ++ ["处理失败: " ++ m]
    | none => delivered

/-! Helper lemmas about the per-turn counter and history updates -/

lemma handle_query_int_id (env : TurnEnv) (q : String) (st : QASessionState) :
    (QAEngine.handle_query env q st).int_id =
      if observedIntent env.intentResult = "t1" then st.int_id + 1 else 1 := by
  simp only [QAEngine.handle_query]
  repeat' split
  all_goals rfl

lemma mainTurn_int_id (env : TurnEnv) (q : String) (ms : MainLoopState) :
    (mainTurn env q ms).int_id =
      if observedIntent env.intentResult = "t1" then ms.int_id + 1 else 1 := by
  simp only [mainTurn]

lemma handle_query_stream_int_id (env : StreamTurnEnv) (q : String) (st : QASessionState) :
    (QAEngine.handle_query_stream env q st).int_id =
      if observedIntent env.intentResult = "t1" then st.int_id + 1 else 1 := by
  simp only [QAEngine.handle_query_stream]
  repeat' split
  all_goals rfl

lemma handle_query_history_length (env : TurnEnv) (q : String) (st : QASessionState) :
    (QAEngine.handle_query env q st).history.length = st.intent_history.length + 2 := by
  simp only [QAEngine.handle_query]
  repeat' split
  all_goals simp

lemma mainTurn_history_length (env : TurnEnv) (q : String) (ms : MainLoopState) :
    (mainTurn env q ms).intent_history.length =
      (if 10 < ms.intent_history.length + 2 then 10
        else ms.intent_history.length + 2) + 2 := by
  simp only [mainTurn, List.length_append, List.length_cons, List.length_nil]
  split <;>
    simp only [List.length_drop, List.length_append, List.length_cons, List.length_nil] <;>
    omega

/-- A minimal collaborator environment carrying only an intent label:
retrieval raises (treated as no results), all other collaborators fail into
their documented fallbacks. -/
def envWithIntent (lab : String) : TurnEnv :=
  { intentResult := some lab, searchResults := none, itemDetails := fun _ => none,
    generate := fun _ _ => none, businessName := fun _ => none, optionsDbOk := true }

/-- Claim C3: every turn updates the follow-up counter to `counter + 1` when
the observed label is `"t1"` (the source's encoding of "same-topic") and to
`1` otherwise, in both `QAEngine.handle_query` and the `main.py` loop; and
from counter `0` the label sequence `[new, same, same, new, same]` (i.e.
`[t2, t1, t1, t2, t1]`) produces the counter trajectory `[1, 2, 3, 1, 2]`. -/
theorem claim_C3 :
    (∀ (env : TurnEnv) (q : String) (st : QASessionState),
      (QAEngine.handle_query env q st).int_id =
        if observedIntent env.intentResult = "t1" then st.int_id + 1 else 1) ∧
      (∀ (env : TurnEnv) (q : String) (ms : MainLoopState),
        (mainTurn env q ms).int_id =
          if observedIntent env.intentResult = "t1" then ms.int_id + 1 else 1) ∧
      (["t2", "t1", "t1", "t2", "t1"].scanl
          (fun c lab => (QAEngine.handle_query (envWithIntent lab) "q" ⟨[], c⟩).int_id)
          0).tail = [1, 2, 3, 1, 2] := by
  refine ⟨handle_query_int_id, mainTurn_int_id, ?_⟩
  decide

/-- Claim C10: after any completed turn the follow-up counter is the old
value plus one or exactly one, hence at least `1`, in `handle_query`,
`handle_query_stream` and the `main.py` loop alike. -/
theorem claim_C10 (env : TurnEnv) (senv : StreamTurnEnv) (q : String)
    (st st' : QASessionState) (ms : MainLoopState) :
    (1 ≤ (QAEngine.handle_query env q st).int_id ∧
        ((QAEngine.handle_query env q st).int_id = st.int_id + 1 ∨
          (QAEngine.handle_query env q st).int_id = 1)) ∧
      (1 ≤ (mainTurn env q ms).int_id ∧
        ((mainTurn env q ms).int_id = ms.int_id + 1 ∨ (mainTurn env q ms).int_id = 1)) ∧
      (1 ≤ (QAEngine.handle_query_stream senv q st').int_id ∧
        ((QAEngine.handle_query_stream senv q st').int_id = st'.int_id + 1 ∨
          (QAEngine.handle_query_stream senv q st').int_id = 1)) := by
  refine ⟨?_, ?_, ?_⟩
  · rw [handle_query_int_id]
    split <;> omega
  · rw [mainTurn_int_id]
    split <;> omega
  · rw [handle_query_stream_int_id]
    split <;> omega

/-- Claim C7: when the intent classification call raises, the turn is not
aborted — the label defaults to `"t2"` (new topic), the counter is set to
`1`, retrieval still runs, and the turn proceeds exactly as if the
classifier had returned `"t2"`. -/
theorem claim_C7 (env : TurnEnv) (q : String) (st : QASessionState)
    (ms : MainLoopState) (h : env.intentResult = none) :
    (QAEngine.handle_query env q st).int_id = 1 ∧
      (QAEngine.handle_query env q st).intent = "t2" ∧
      (QAEngine.handle_query env q st).searchCalls = 1 ∧
      QAEngine.handle_query env q st =
        QAEngine.handle_query { env with intentResult := some "t2" } q st ∧
      mainTurn env q ms = mainTurn { env with intentResult := some "t2" } q ms := by
  obtain ⟨i, r, d, g, b, o⟩ := env
  have hi : i = none := h
  subst hi
  refine ⟨?_, ?_, ?_, rfl, rfl⟩
  · rw [handle_query_int_id]
    rfl
  · simp only [QAEngine.handle_query]
    repeat' split
    all_goals rfl
  · simp only [QAEngine.handle_query]
    repeat' split
    all_goals rfl

/-- Witness for C7 at a concrete input. -/
theorem claim_C7_witness :
    (QAEngine.handle_query ⟨none, none, fun _ => none, fun _ _ => none,
        fun _ => none, true⟩ "q" ⟨[], 0⟩).int_id = 1 ∧
      (QAEngine.handle_query ⟨none, none, fun _ => none, fun _ _ => none,
          fun _ => none, true⟩ "q" ⟨[], 0⟩).intent = "t2" ∧
      (QAEngine.handle_query ⟨none, none, fun _ => none, fun _ _ => none,
          fun _ => none, true⟩ "q" ⟨[], 0⟩).searchCalls = 1 ∧
      QAEngine.handle_query ⟨none, none, fun _ => none, fun _ _ => none,
          fun _ => none, true⟩ "q" ⟨[], 0⟩ =
        QAEngine.handle_query ⟨some "t2", none, fun _ => none, fun _ _ => none,
          fun _ => none, true⟩ "q" ⟨[], 0⟩ ∧
      mainTurn ⟨none, none, fun _ => none, fun _ _ => none, fun _ => none, true⟩
          "q" ⟨[], 0⟩ =
        mainTurn ⟨some "t2", none, fun _ => none, fun _ _ => none, fun _ => none, true⟩
          "q" ⟨[], 0⟩ :=
  claim_C7 ⟨none, none, fun _ => none, fun _ _ => none, fun _ => none, true⟩
    "q" ⟨[], 0⟩ ⟨[], 0⟩ rfl

/-- Claim C2 (amended): with at least one retrieval result and a decision-time
follow-up counter of 3 or more, both routers defer without any context fetch
or generation call; `main.py` returns its dedicated "too many follow-ups"
message (distinct from its "not found" message), while `QAEngine.handle_query`
returns the same fixed "not found" message it uses for empty retrieval. -/
theorem claim_C2 (env : TurnEnv) (q : String) (st : QASessionState) (ms : MainLoopState)
    (rs : List (MatchEntry ℝ)) (henv : env.searchResults = some rs) (hne : rs ≠ [])
    (hq : 3 ≤ if observedIntent env.intentResult = "t1" then st.int_id + 1 else 1)
    (hm : 3 ≤ if observedIntent env.intentResult = "t1" then ms.int_id + 1 else 1) :
    ((QAEngine.handle_query env q st).rtype = "answer" ∧
        (QAEngine.handle_query env q st).answer = qaDeferMessage ∧
        (QAEngine.handle_query env q st).fetchedContext = false ∧
        (QAEngine.handle_query env q st).calledGenerator = false) ∧
      ((mainTurn env q ms).assistant_response = mainDeferExhaustedMessage ∧
        (mainTurn env q ms).fetchedContext = false ∧
        (mainTurn env q ms).calledGenerator = false) ∧
      mainDeferExhaustedMessage ≠ mainDeferEmptyMessage := by
  have hlen : rs.length ≠ 0 := fun h => hne (List.length_eq_zero.mp h)
  refine ⟨?_, ?_, by decide⟩
  · simp only [QAEngine.handle_query, henv, Option.getD_some]
    rw [if_neg]
    · exact ⟨rfl, rfl, rfl, rfl⟩
    · rintro ⟨-, hlt⟩
      omega
  · simp only [mainTurn, henv, Option.getD_some]
    rw [if_neg, if_neg hlen]
    · exact ⟨rfl, rfl, rfl⟩
    · rintro ⟨-, hlt⟩
      omega

def envTwoResults : TurnEnv :=
  { intentResult := some "t1", searchResults := some [⟨1, "A", 0⟩, ⟨2, "B", 0⟩],
    itemDetails := fun _ => none, generate := fun _ _ => none,
    businessName := fun _ => none, optionsDbOk := true }

def envNoResults : TurnEnv :=
  { intentResult := some "t1", searchResults := some [],
    itemDetails := fun _ => none, generate := fun _ _ => none,
    businessName := fun _ => none, optionsDbOk := true }

/-- Witness for C2 at a concrete input. -/
theorem claim_C2_witness :
    (QAEngine.handle_query envTwoResults "q" ⟨[], 2⟩).rtype = "answer" ∧
      (QAEngine.handle_query envTwoResults "q" ⟨[], 2⟩).answer = qaDeferMessage ∧
      (QAEngine.handle_query envTwoResults "q" ⟨[], 2⟩).fetchedContext = false ∧
      (QAEngine.handle_query envTwoResults "q" ⟨[], 2⟩).calledGenerator = false :=
  (claim_C2 envTwoResults "q" ⟨[], 2⟩ ⟨[], 2⟩ [⟨1, "A", 0⟩, ⟨2, "B", 0⟩] rfl
    (List.cons_ne_nil _ _) (by decide) (by decide)).1

/-- Counterexample to C2 as stated: in `QAEngine.handle_query`, the defer
output for an exhausted counter with two retrieval results is literally the
same string as the defer-empty "not found" output, so the claimed distinct
"too many follow-ups" message does not exist on this code path. -/
theorem claim_C2_counterexample :
    (QAEngine.handle_query envTwoResults "q" ⟨[], 2⟩).int_id = 3 ∧
      (QAEngine.handle_query envTwoResults "q" ⟨[], 2⟩).num_results = 2 ∧
      (QAEngine.handle_query envTwoResults "q" ⟨[], 2⟩).answer =
        (QAEngine.handle_query envNoResults "q" ⟨[], 0⟩).answer ∧
      (QAEngine.handle_query envNoResults "q" ⟨[], 0⟩).num_results = 0 :=
  ⟨rfl, rfl, rfl, rfl⟩

/-- Claim C5 (amended): `QAEngine.handle_query` appends exactly two entries
per turn and applies no cap at all; the `main.py` loop appends four entries
per turn (two bare strings, then two role-tagged dicts) with the 10-entry
trim applied between the two appends, so its history settles at 12. -/
theorem claim_C5 :
    (∀ (env : TurnEnv) (q : String) (st : QASessionState),
      (QAEngine.handle_query env q st).history.length = st.intent_history.length + 2) ∧
      (∀ (env : TurnEnv) (q : String) (ms : MainLoopState),
        (mainTurn env q ms).intent_history.length =
          (if 10 < ms.intent_history.length + 2 then 10
            else ms.intent_history.length + 2) + 2) :=
  ⟨handle_query_history_length, mainTurn_history_length⟩

def envEmptySearch : TurnEnv :=
  { intentResult := some "t2", searchResults := some [],
    itemDetails := fun _ => none, generate := fun _ _ => none,
    businessName := fun _ => none, optionsDbOk := true }

/-- Counterexample to C5 as stated: after 6 turns `QAEngine.handle_query`
has 12 history entries (no cap is ever applied), and after 3 turns the
`main.py` loop also has 12 entries (four appends per turn, trim mid-turn) —
both exceed the claimed 10-entry bound. -/
theorem claim_C5_counterexample :
    ((List.range 6).foldl
        (fun st _ => ⟨(QAEngine.handle_query envEmptySearch "q" st).history,
          (QAEngine.handle_query envEmptySearch "q" st).int_id⟩)
        (⟨[], 0⟩ : QASessionState)).intent_history.length = 12 ∧
      ((List.range 3).foldl
          (fun ms _ => ⟨(mainTurn envEmptySearch "q" ms).intent_history,
            (mainTurn envEmptySearch "q" ms).int_id⟩)
          (⟨[], 0⟩ : MainLoopState)).intent_history.length = 12 := by
  decide

/-- Claim C6 (amended): when the generation stream raises after producing
some fragments (single-result streaming branch, counter below 3), the
already-yielded chunks are delivered but the partial text is NOT committed to
the session history, and no terminal error indicator is appended: the
`except` handler references the undefined attribute `self.logger` and itself
raises, so the exception escapes the generator. -/
theorem claim_C6 (env : StreamTurnEnv) (query : String) (session : QASessionState)
    (r : MatchEntry ℝ) (hres : env.searchResults = some [r])
    (hsql : env.sqlLogFetchRaises = false) (hraise : env.streamRaises = true)
    (hcnt : (if observedIntent env.intentResult = "t1" then session.int_id + 1 else 1) < 3) :
    (QAEngine.handle_query_stream env query session).intent_history =
        session.intent_history ∧
      (QAEngine.handle_query_stream env query session).chunks =
        idJsonChunk r.id :: env.streamFragments ∧
      (QAEngine.handle_query_stream env query session).raised = true := by
  obtain ⟨i, sr, d, sq, f, x, b, o⟩ := env
  have hsr : sr = some [r] := hres
  have hsq : sq = false := hsql
  have hx : x = true := hraise
  subst hsr hsq hx
  simp only [QAEngine.handle_query_stream, Option.getD_some]
  rw [if_pos ⟨by simp, hcnt⟩]
  exact ⟨rfl, rfl, rfl⟩

def envStreamRaise : StreamTurnEnv :=
  { intentResult := some "t2", searchResults := some [⟨1, "A", 0⟩],
    itemDetails := fun _ => none, sqlLogFetchRaises := false,
    streamFragments := ["部分回答"], streamRaises := true,
    businessName := fun _ => none, optionsDbOk := true }

/-- Witness for C6 at a concrete input. -/
theorem claim_C6_witness :
    (QAEngine.handle_query_stream envStreamRaise "q" ⟨[], 0⟩).intent_history = [] ∧
      (QAEngine.handle_query_stream envStreamRaise "q" ⟨[], 0⟩).chunks =
        idJsonChunk (1 : Int) :: ["部分回答"] ∧
      (QAEngine.handle_query_stream envStreamRaise "q" ⟨[], 0⟩).raised = true :=
  claim_C6 envStreamRaise "q" ⟨[], 0⟩ ⟨1, "A", 0⟩ rfl rfl rfl (by decide)

/-- Counterexample to C6 as stated: with one fragment `"部分回答"` produced
before the stream raises, the session history stays empty (the partial text
is not committed) and the yielded chunks are exactly the id header and the
fragment — no terminal error indicator is appended; the generator terminates
with an escaping exception instead. -/
theorem claim_C6_counterexample :
    (QAEngine.handle_query_stream envStreamRaise "问题" ⟨[], 1⟩).intent_history = [] ∧
      (QAEngine.handle_query_stream envStreamRaise "问题" ⟨[], 1⟩).chunks =
        ["```json\\n\x7b\\\"id\\\": \\\"1\\\"\x7d\\n```\\n\\n", "部分回答"] ∧
      (QAEngine.handle_query_stream envStreamRaise "问题" ⟨[], 1⟩).raised = true := by
  decide

/-- The `answer`-typed output of `QAEngine.handle_query` is always either one
of the two fixed messages or exactly what the generator produced (or the
options marker). -/
lemma handle_query_answer_shape (env : TurnEnv) (q : String) (st : QASessionState) :
    (QAEngine.handle_query env q st).answer = qaDeferMessage ∨
      (QAEngine.handle_query env q st).answer = generationFailureMessage ∨
      (∃ ctx, env.generate q ctx = some (QAEngine.handle_query env q st).answer) ∨
      (QAEngine.handle_query env q st).rtype = "options" := by
  simp only [QAEngine.handle_query]
  repeat' split
  all_goals try exact Or.inl rfl
  all_goals try exact Or.inr (Or.inr (Or.inr rfl))
  all_goals
    (rcases hg : env.generate q
        ((env.itemDetails (env.searchResults.getD []).headI.id).getD
          (env.searchResults.getD []).headI.text) with - | a <;>
      first
        | (right; right; left; exact ⟨_, hg⟩)
        | (right; left; simp [hg]))

/-- Claim C8 (amended): `QAEngine.handle_query` never exposes a raw error
string — its `answer`-typed output is the fixed defer message, the fixed
generation-failure message, or the generator's own output; but
`Branch1Engine.handle_query_stream` streams `"处理失败: " + str(e)` to the
user whenever the database fetch raises. -/
theorem claim_C8 :
    (∀ (env : TurnEnv) (q : String) (st : QASessionState),
      (QAEngine.handle_query env q st).rtype = "answer" →
        (QAEngine.handle_query env q st).answer = qaDeferMessage ∨
          (QAEngine.handle_query env q st).answer = generationFailureMessage ∨
          ∃ ctx, env.generate q ctx = some (QAEngine.handle_query env q st).answer) ∧
      (∀ (m : String) (item_id : Int) (uq : String) (frags : List String)
          (serr : Option String),
        Branch1Engine.handle_query_stream ⟨some m, frags, serr⟩ item_id uq =
          ["处理失败: 数据库查询失败: " ++ m]) := by
  constructor
  · intro env q st h
    rcases handle_query_answer_shape env q st with h1 | h1 | h1 | h1
    · exact Or.inl h1
    · exact Or.inr (Or.inl h1)
    · exact Or.inr (Or.inr h1)
    · rw [h1] at h
      exact absurd h (by decide)
  · intro m item_id uq frags serr
    rfl

def envC8 : TurnEnv :=
  { intentResult := some "t2", searchResults := some [],
    itemDetails := fun _ => none, generate := fun _ _ => none,
    businessName := fun _ => none, optionsDbOk := true }

/-- Witness for C8 at a concrete input. -/
theorem claim_C8_witness :
    (QAEngine.handle_query envC8 "q" ⟨[], 0⟩).answer = qaDeferMessage ∨
      (QAEngine.handle_query envC8 "q" ⟨[], 0⟩).answer = generationFailureMessage ∨
      ∃ ctx, envC8.generate "q" ctx =
        some (QAEngine.handle_query envC8 "q" ⟨[], 0⟩).answer :=
  claim_C8.1 envC8 "q" ⟨[], 0⟩ rfl

/-- Counterexample to C8 as stated: when the Branch1 DB fetch raises with
message `"boom"`, the stream delivered to the user consists of the raw error
text (wrapped in `处理失败: 数据库查询失败: `), which is none of the fixed
defer/degraded messages. -/
theorem claim_C8_counterexample :
    Branch1Engine.handle_query_stream ⟨some "boom", [], none⟩ 7 "q" =
        ["处理失败: 数据库查询失败: boom"] ∧
      ∀ fixed ∈ [qaDeferMessage, generationFailureMessage, mainDeferEmptyMessage,
          mainDeferExhaustedMessage],
        "处理失败: 数据库查询失败: boom" ≠ fixed :=
  ⟨rfl, by decide⟩
